import Mathlib

/-!
Verification of the event-ingestion and validation subsystem of
baby-tracker-server (internal/server/server.go: createEvent,
buildCreateEventInput, parseTimestamp, parseID, and the createEventRequest
wire struct; internal/postgres/store.go: the events_range_check constraint).

The Go code is embedded shallowly:

* Go time.Time values, as produced by time.Parse(time.RFC3339, s), are
  modelled by the GoTime structure: the parsed calendar fields plus the
  nanosecond part and the zone offset in minutes.  Comparison (After) is
  done on the absolute instant, exactly as Go compares the internal
  seconds/nanoseconds pair.
* time.Parse(time.RFC3339, s) is modelled by goParseRFC3339, a character
  level parser for the RFC 3339 shape Go accepts: four digit year,
  yyyy-mm-ddThh:mm:ss, an optional fraction of one or more digits (of
  which the first nine are kept), and a zone that is either an upper case
  Z or a signed hh:mm offset with hours up to 23 and minutes up to 59;
  calendar fields are range checked, including the day against the month
  length and leap years.  Go rejects leap seconds (second 60), so does
  the model.
* Format(time.RFC3339) is modelled by formatRFC3339, which prints the
  calendar fields without the fractional part and prints Z for a zero
  offset.
* strings.TrimSpace and strings.ToLower are modelled on the character
  sets relevant to this code base: ASCII whitespace plus NEL and NBSP
  for trimming, and ASCII letters for lowering.
* json.RawMessage payloads produced by json.Marshal of the small maps in
  buildCreateEventInput are modelled as association lists of string keys
  and JSON values, in the order the source writes the map literal.
* strconv.ParseInt(s, 10, 64) is modelled by goParseInt64 with the
  int64 range check.
* The HTTP handler createEvent is modelled as a function of the raw path
  value and of the result of decoding the JSON body; its observable
  outcome (which error short-circuits, or the exact input passed to the
  store) is the CreateEventOutcome inductive.  The echoing store stub of
  the unit tests (server_test.go) is modelled by stubCreateEvent.
-/

namespace BabyTracker

deriving instance DecidableEq for Except

/-- Models a Go time.Time as produced by parsing an RFC 3339 string:
calendar fields, nanoseconds, and the fixed zone offset in minutes. -/
structure GoTime where
  year : Nat
  month : Nat
  day : Nat
  hour : Nat
  minute : Nat
  second : Nat
  nsec : Nat
  offMin : Int
deriving DecidableEq

/-- Decimal digit value of a character, if it is one. -/
def digitVal (c : Char) : Option Nat :=
  if 48 ≤ c.toNat ∧ c.toNat ≤ 57 then some (c.toNat - 48) else none

/-- Read exactly two digits. -/
def take2 : List Char → Option (Nat × List Char)
  | c1 :: c2 :: rest => do
    let d1 ← digitVal c1
    let d2 ← digitVal c2
    pure (d1 * 10 + d2, rest)
  | _ => none

/-- Read exactly four digits. -/
def take4 : List Char → Option (Nat × List Char)
  | c1 :: c2 :: c3 :: c4 :: rest => do
    let d1 ← digitVal c1
    let d2 ← digitVal c2
    let d3 ← digitVal c3
    let d4 ← digitVal c4
    pure (((d1 * 10 + d2) * 10 + d3) * 10 + d4, rest)
  | _ => none

/-- Consume one expected character. -/
def expectChar (c : Char) : List Char → Option (List Char)
  | c1 :: rest => if c1 = c then some rest else none
  | [] => none

/-- Longest prefix of digits, as digit values, with the remainder. -/
def takeDigits : List Char → List Nat × List Char
  | [] => ([], [])
  | c :: rest =>
    match digitVal c with
    | some d =>
      let (ds, rem) := takeDigits rest
      (d :: ds, rem)
    | none => ([], c :: rest)

/-- Nanoseconds from a digit list: Go keeps the first nine fractional
digits and scales them to nanoseconds. -/
def nsecOfDigits (ds : List Nat) : Nat :=
  let ds9 := ds.take 9
  (ds9.foldl (fun acc d => acc * 10 + d) 0) * 10 ^ (9 - ds9.length)

/-- Optional fractional-second part: a dot followed by at least one
digit.  A dot not followed by a digit makes the whole parse fail, as it
does in Go where the leftover dot cannot start a zone. -/
def parseFrac : List Char → Option (Nat × List Char)
  | '.' :: c :: rest =>
    match digitVal c with
    | some d =>
      let (ds, rem) := takeDigits rest
      some (nsecOfDigits (d :: ds), rem)
    | none => none
  | ['.'] => none
  | cs => some (0, cs)

/-- Zone part: an upper case Z, or a sign with hh:mm, hours at most 23
and minutes at most 59; the result is the offset in minutes. -/
def parseOffset : List Char → Option (Int × List Char)
  | 'Z' :: rest => some (0, rest)
  | '+' :: rest => do
    let (h, rest) ← take2 rest
    let rest ← expectChar ':' rest
    let (m, rest) ← take2 rest
    if h ≤ 23 ∧ m ≤ 59 then pure (((h * 60 + m : Nat) : Int), rest) else none
  | '-' :: rest => do
    let (h, rest) ← take2 rest
    let rest ← expectChar ':' rest
    let (m, rest) ← take2 rest
    if h ≤ 23 ∧ m ≤ 59 then pure (-((h * 60 + m : Nat) : Int), rest) else none
  | _ => none

/-- Gregorian leap year. -/
def isLeapYear (y : Nat) : Bool :=
  (y % 4 == 0 && y % 100 != 0) || y % 400 == 0

/-- Number of days in a month, as Go daysIn. -/
def daysIn (y mo : Nat) : Nat :=
  if mo = 2 then (if isLeapYear y then 29 else 28)
  else if mo = 4 ∨ mo = 6 ∨ mo = 9 ∨ mo = 11 then 30
  else 31

/-- A separator character followed by two digits. -/
def sep2 (sep : Char) (cs : List Char) : Option (Nat × List Char) :=
  match expectChar sep cs with
  | some rest => take2 rest
  | none => none

/-- Model of Go time.Parse(time.RFC3339, s): the exact textual shape
with optional fractional seconds, and the range checks Go performs. -/
def goParseRFC3339 (s : String) : Option GoTime :=
  match take4 s.data with
  | none => none
  | some (y, cs) =>
    match sep2 '-' cs with
    | none => none
    | some (mo, cs) =>
      match sep2 '-' cs with
      | none => none
      | some (d, cs) =>
        match sep2 'T' cs with
        | none => none
        | some (h, cs) =>
          match sep2 ':' cs with
          | none => none
          | some (mi, cs) =>
            match sep2 ':' cs with
            | none => none
            | some (se, cs) =>
              match parseFrac cs with
              | none => none
              | some (ns, cs) =>
                match parseOffset cs with
                | none => none
                | some (off, cs) =>
                  if cs.isEmpty ∧ (1 ≤ mo ∧ mo ≤ 12) ∧ (1 ≤ d ∧ d ≤ daysIn y mo)
                      ∧ h ≤ 23 ∧ mi ≤ 59 ∧ se ≤ 59 then
                    some ⟨y, mo, d, h, mi, se, ns, off⟩
                  else none

/-- Days since the Unix epoch of a Gregorian calendar date. -/
def daysFromCivil (y : Int) (m d : Nat) : Int :=
  let yAdj : Int := if m ≤ 2 then y - 1 else y
  let era : Int := Int.fdiv yAdj 400
  let yoe : Int := yAdj - era * 400
  let mp : Nat := (m + 9) % 12
  let doy : Int := Int.fdiv (153 * (mp : Int) + 2) 5 + (d : Int) - 1
  let doe : Int := yoe * 365 + Int.fdiv yoe 4 - Int.fdiv yoe 100 + doy
  era * 146097 + doe - 719468

/-- Seconds since the Unix epoch of the instant a GoTime denotes,
taking the zone offset into account: this is the internal seconds field
Go compares. -/
def unixSec (t : GoTime) : Int :=
  86400 * daysFromCivil (t.year : Int) t.month t.day
    + 3600 * (t.hour : Int) + 60 * (t.minute : Int) + (t.second : Int)
    - 60 * t.offMin

/-- Model of Go (a time.Time).After(b): strict comparison of the
absolute instants, seconds first and then nanoseconds. -/
def dtAfter (a b : GoTime) : Bool :=
  unixSec b < unixSec a || (unixSec a == unixSec b && b.nsec < a.nsec)

/-- Left pad a natural number with zeros to a width. -/
def natPad (w n : Nat) : String :=
  let s := toString n
  String.mk (List.replicate (w - s.length) '0') ++ s

/-- Zone suffix of Format(time.RFC3339): Z for a zero offset, otherwise
a signed hh:mm offset. -/
def formatOffset (o : Int) : String :=
  if o = 0 then "Z"
  else if 0 < o then "+" ++ natPad 2 (o.toNat / 60) ++ ":" ++ natPad 2 (o.toNat % 60)
  else "-" ++ natPad 2 ((-o).toNat / 60) ++ ":" ++ natPad 2 ((-o).toNat % 60)

/-- Model of Go (a time.Time).Format(time.RFC3339): whole-second
precision, the fractional part is not printed. -/
def formatRFC3339 (t : GoTime) : String :=
  natPad 4 t.year ++ "-" ++ natPad 2 t.month ++ "-" ++ natPad 2 t.day
    ++ "T" ++ natPad 2 t.hour ++ ":" ++ natPad 2 t.minute ++ ":" ++ natPad 2 t.second
    ++ formatOffset t.offMin

/-- Characters Go strings.TrimSpace trims, restricted to the ASCII
whitespace plus NEL and NBSP. -/
def goIsSpace (c : Char) : Bool :=
  c = ' ' || c = '\t' || c = '\n' || c = '\x0b' || c = '\x0c' || c = '\r'
    || c.toNat = 133 || c.toNat = 160

/-- Model of Go strings.TrimSpace. -/
def goTrimSpace (s : String) : String :=
  String.mk (((s.data.dropWhile goIsSpace).reverse.dropWhile goIsSpace).reverse)

/-- ASCII lowering of one character, as Go strings.ToLower acts on the
ASCII letters this code compares against. -/
def goToLowerChar (c : Char) : Char :=
  if 65 ≤ c.toNat ∧ c.toNat ≤ 90 then Char.ofNat (c.toNat + 32) else c

/-- Model of Go strings.ToLower. -/
def goToLower (s : String) : String :=
  String.mk (s.data.map goToLowerChar)

/-- Maximum value of a Go int64. -/
def int64Max : Int := 9223372036854775807

/-- Value of a nonempty digit string. -/
def digitsVal : List Char → Option Nat
  | [] => none
  | cs =>
    let (ds, rem) := takeDigits cs
    if rem.isEmpty ∧ ¬ ds.isEmpty then some (ds.foldl (fun acc d => acc * 10 + d) 0)
    else none

/-- Model of Go strconv.ParseInt(s, 10, 64): optional sign, decimal
digits, int64 range check. -/
def goParseInt64 (s : String) : Except String Int :=
  match s.data with
  | '+' :: rest =>
    match digitsVal rest with
    | some n => if (n : Int) ≤ int64Max then .ok (n : Int) else .error "value out of range"
    | none => .error "invalid syntax"
  | '-' :: rest =>
    match digitsVal rest with
    | some n => if (n : Int) ≤ int64Max + 1 then .ok (-(n : Int)) else .error "value out of range"
    | none => .error "invalid syntax"
  | cs =>
    match digitsVal cs with
    | some n => if (n : Int) ≤ int64Max then .ok (n : Int) else .error "invalid syntax"
    | none => .error "invalid syntax"

/-- The two distinct error values parseTimestamp can produce: the
required error for blank input, and the time.Parse error otherwise. -/
inductive TimestampError where
  | required
  | malformed
deriving DecidableEq

/-- Model of parseTimestamp (server.go): trim, report blank input with
the required error, otherwise delegate to time.Parse(time.RFC3339, s). -/
def parseTimestamp (value : String) : Except TimestampError GoTime :=
  let v := goTrimSpace value
  if v = "" then .error .required
  else
    match goParseRFC3339 v with
    | some t => .ok t
    | none => .error .malformed

/-- Model of parseID (server.go): trim, reject blank input, otherwise
strconv.ParseInt in base 10 with 64 bits. -/
def parseID (value : String) : Except String Int :=
  let v := goTrimSpace value
  if v = "" then .error "id required"
  else goParseInt64 v

/-- The decoded JSON request body, createEventRequest in server.go.
The Go field Type is named typ here because Type is reserved in Lean.
Defaults are the Go zero values a missing JSON key decodes to. -/
structure createEventRequest where
  typ : String := ""
  occurredAt : String := ""
  startAt : String := ""
  endAt : String := ""
  side : String := ""
  durationMinutes : Int := 0
  notes : String := ""
deriving DecidableEq

/-- A JSON value stored in a details payload. -/
inductive JSONValue where
  | s (v : String)
  | n (v : Int)
deriving DecidableEq

/-- CreateEventInput in server.go; the json.RawMessage details payload
is the association list json.Marshal serializes. -/
structure CreateEventInput where
  babyID : Int
  typ : String
  occurredAt : GoTime
  details : List (String × JSONValue)
deriving DecidableEq

/-- Model of buildCreateEventInput (server.go).  The json.Marshal error
branches are omitted: marshalling these small maps of strings and
integers cannot fail.  The switch scrutinee is written out in each
branch test; it is a pure expression, so this is the same function. -/
def buildCreateEventInput (babyID : Int) (req : createEventRequest) :
    Except String CreateEventInput :=
  if goToLower (goTrimSpace req.typ) = "diaper" then
    match parseTimestamp req.occurredAt with
    | .error _ => .error "occurred_at is required for diaper events"
    | .ok occurredAt =>
      let details : List (String × JSONValue) :=
        if goTrimSpace req.notes ≠ "" then [("notes", .s req.notes)] else []
      .ok ⟨babyID, "diaper", occurredAt, details⟩
  else if goToLower (goTrimSpace req.typ) = "nursing" then
    match parseTimestamp req.occurredAt with
    | .error _ => .error "occurred_at is required for nursing events"
    | .ok occurredAt =>
      if goToLower (goTrimSpace req.side) ≠ "left" ∧ goToLower (goTrimSpace req.side) ≠ "right" then
        .error "side must be left or right for nursing events"
      else if req.durationMinutes ≤ 0 then
        .error "duration_minutes must be greater than 0 for nursing events"
      else
        .ok ⟨babyID, "nursing", occurredAt,
          [("side", .s (goToLower (goTrimSpace req.side))),
           ("duration_minutes", .n req.durationMinutes)]⟩
  else if goToLower (goTrimSpace req.typ) = "sleep" then
    match parseTimestamp req.startAt with
    | .error _ => .error "start_at is required for sleep events"
    | .ok startAt =>
      match parseTimestamp req.endAt with
      | .error _ => .error "end_at is required for sleep events"
      | .ok endAt =>
        if !dtAfter endAt startAt then
          .error "end_at must be after start_at for sleep events"
        else
          .ok ⟨babyID, "sleep", startAt,
            [("start_at", .s (formatRFC3339 startAt)),
             ("end_at", .s (formatRFC3339 endAt))]⟩
  else
    .error "type must be diaper, nursing, or sleep"

/-- Observable outcome of one call of the createEvent HTTP handler:
which guard short-circuited, or the exact input handed to the store. -/
inductive CreateEventOutcome where
  | invalidBabyID
  | invalidJSON
  | badRequest (msg : String)
  | storeCalled (input : CreateEventInput)
deriving DecidableEq

/-- Model of the createEvent handler (server.go): parse the path id,
then decode the body, then build the input, and only then call the
store.  The body argument is the result of json.Decode. -/
def createEvent (babyIDRaw : String) (body : Except String createEventRequest) :
    CreateEventOutcome :=
  match parseID babyIDRaw with
  | .error _ => .invalidBabyID
  | .ok babyID =>
    match body with
    | .error _ => .invalidJSON
    | .ok req =>
      match buildCreateEventInput babyID req with
      | .error msg => .badRequest msg
      | .ok input => .storeCalled input

/-- A stored event as returned by the store, Event in server.go. -/
structure Event where
  id : Int
  babyID : Int
  typ : String
  occurredAt : GoTime
  details : List (String × JSONValue)
deriving DecidableEq

/-- The echoing store stub of server_test.go: it assigns the id and
returns the input otherwise unchanged. -/
def stubCreateEvent (createEventID : Int) (input : CreateEventInput) : Event :=
  ⟨createEventID, input.babyID, input.typ, input.occurredAt, input.details⟩

/-- The handler composed with the echoing store stub: the event written
back to the client on success. -/
def createEventEcho (createEventID : Int) (babyIDRaw : String)
    (body : Except String createEventRequest) : Option Event :=
  match createEvent babyIDRaw body with
  | .storeCalled input => some (stubCreateEvent createEventID input)
  | _ => none

/-- The events_range_check CHECK constraint of the events table
(store.go migrate): started_at IS NULL OR started_at <= ended_at.  A
NULL ended_at makes the comparison unknown, which a CHECK accepts. -/
def events_range_check (startedAt endedAt : Option GoTime) : Bool :=
  match startedAt, endedAt with
  | none, _ => true
  | some _, none => true
  | some s, some e => !dtAfter s e

/-! Branch equations for buildCreateEventInput, one per arm of the Go
switch; each claim proof selects its branch with these. -/

theorem build_diaper_eq (bid : Int) (req : createEventRequest)
    (h : goToLower (goTrimSpace req.typ) = "diaper") :
    buildCreateEventInput bid req =
      match parseTimestamp req.occurredAt with
      | .error _ => .error "occurred_at is required for diaper events"
      | .ok occurredAt =>
        .ok ⟨bid, "diaper", occurredAt,
          if goTrimSpace req.notes ≠ "" then [("notes", .s req.notes)] else []⟩ := by
  unfold buildCreateEventInput
  rw [if_pos h]

theorem build_nursing_eq (bid : Int) (req : createEventRequest)
    (h : goToLower (goTrimSpace req.typ) = "nursing") :
    buildCreateEventInput bid req =
      match parseTimestamp req.occurredAt with
      | .error _ => .error "occurred_at is required for nursing events"
      | .ok occurredAt =>
        if goToLower (goTrimSpace req.side) ≠ "left" ∧ goToLower (goTrimSpace req.side) ≠ "right" then
          .error "side must be left or right for nursing events"
        else if req.durationMinutes ≤ 0 then
          .error "duration_minutes must be greater than 0 for nursing events"
        else
          .ok ⟨bid, "nursing", occurredAt,
            [("side", .s (goToLower (goTrimSpace req.side))),
             ("duration_minutes", .n req.durationMinutes)]⟩ := by
  unfold buildCreateEventInput
  simp only [h]
  rw [if_neg (by decide), if_pos trivial]

theorem build_sleep_eq (bid : Int) (req : createEventRequest)
    (h : goToLower (goTrimSpace req.typ) = "sleep") :
    buildCreateEventInput bid req =
      match parseTimestamp req.startAt with
      | .error _ => .error "start_at is required for sleep events"
      | .ok startAt =>
        match parseTimestamp req.endAt with
        | .error _ => .error "end_at is required for sleep events"
        | .ok endAt =>
          if !dtAfter endAt startAt then
            .error "end_at must be after start_at for sleep events"
          else
            .ok ⟨bid, "sleep", startAt,
              [("start_at", .s (formatRFC3339 startAt)),
               ("end_at", .s (formatRFC3339 endAt))]⟩ := by
  unfold buildCreateEventInput
  simp only [h]
  rw [if_neg (by decide), if_neg (by decide), if_pos trivial]

theorem build_unknown_eq (bid : Int) (req : createEventRequest)
    (h1 : goToLower (goTrimSpace req.typ) ≠ "diaper")
    (h2 : goToLower (goTrimSpace req.typ) ≠ "nursing")
    (h3 : goToLower (goTrimSpace req.typ) ≠ "sleep") :
    buildCreateEventInput bid req = .error "type must be diaper, nursing, or sleep" := by
  unfold buildCreateEventInput
  rw [if_neg h1, if_neg h2, if_neg h3]

example : daysFromCivil 1970 1 1 = 0 := by decide
example : daysFromCivil 2000 3 1 = 11017 := by decide
example : goParseRFC3339 "2026-02-26T10:00:00Z" = some ⟨2026, 2, 26, 10, 0, 0, 0, 0⟩ := by decide
example : goParseRFC3339 "2026-02-26T10:00:00.5+01:30" = some ⟨2026, 2, 26, 10, 0, 0, 500000000, 90⟩ := by decide
example : goParseRFC3339 "2026-02-30T10:00:00Z" = none := by decide
example : goParseRFC3339 "2026-02-26 10:00:00Z" = none := by decide
example : formatRFC3339 ⟨2026, 2, 26, 10, 0, 0, 750000000, 0⟩ = "2026-02-26T10:00:00Z" := by decide
example : formatRFC3339 ⟨2026, 2, 26, 10, 0, 0, 0, -90⟩ = "2026-02-26T10:00:00-01:30" := by decide
example : parseID "0" = .ok 0 := by decide
example : parseID " 12 " = .ok 12 := by decide
example : goToLower (goTrimSpace " Diaper ") = "diaper" := by decide

/-- C1 counterexample: a nursing submission that supplies both start_at
and end_at with end equal to start is accepted, because the nursing
branch never reads the range fields; this refutes the claim that the
pair is rejected for nursing events. -/
theorem c1_counterexample :
    buildCreateEventInput 1
      { typ := "nursing", occurredAt := "2026-02-26T10:00:00Z",
        startAt := "2026-02-26T10:00:00Z", endAt := "2026-02-26T10:00:00Z",
        side := "left", durationMinutes := 15 }
      = .ok ⟨1, "nursing", ⟨2026, 2, 26, 10, 0, 0, 0, 0⟩,
          [("side", .s "left"), ("duration_minutes", .n 15)]⟩ := by decide

/-- C1 amended: for sleep events with both timestamps parsed, the
submission is accepted exactly when end_at is strictly after start_at
(equal and inverted ranges are rejected); nursing events ignore the
start_at and end_at fields entirely; and the database range constraint
only enforces started_at not after ended_at, so it accepts equal
timestamps. -/
theorem c1_amended :
    (∀ (bid : Int) (r : createEventRequest) (s e : GoTime),
      goToLower (goTrimSpace r.typ) = "sleep" →
      parseTimestamp r.startAt = .ok s →
      parseTimestamp r.endAt = .ok e →
      ((∃ input, buildCreateEventInput bid r = .ok input) ↔ dtAfter e s = true)) ∧
    (∀ (bid : Int) (r : createEventRequest) (sa ea : String),
      goToLower (goTrimSpace r.typ) = "nursing" →
      buildCreateEventInput bid { r with startAt := sa, endAt := ea }
        = buildCreateEventInput bid r) ∧
    (∀ t : GoTime, events_range_check (some t) (some t) = true) := by
  refine ⟨?_, ?_, ?_⟩
  · intro bid r s e ht hs he
    rw [build_sleep_eq bid r ht, hs, he]
    by_cases hA : dtAfter e s = true
    · simp [hA]
    · simp only [Bool.not_eq_true] at hA
      simp [hA]
  · intro bid r sa ea ht
    rw [build_nursing_eq bid { r with startAt := sa, endAt := ea } ht,
      build_nursing_eq bid r ht]
  · intro t
    simp [events_range_check, dtAfter]

/-- C1 witness: a sleep submission whose start is strictly before its
end is accepted. -/
theorem c1_witness :
    ∃ input, buildCreateEventInput 1
      { typ := "sleep", startAt := "2026-02-26T10:00:00Z", endAt := "2026-02-26T11:00:00Z" }
      = .ok input :=
  (c1_amended.1 1 _ ⟨2026, 2, 26, 10, 0, 0, 0, 0⟩ ⟨2026, 2, 26, 11, 0, 0, 0, 0⟩
    (by decide) (by decide) (by decide)).mpr (by decide)

/-- C2 counterexample: a diaper submission carrying the forbidden side
field is accepted without any validation error, and the side value is
silently dropped from the stored payload; this refutes the claim that a
forbidden field yields an error and is never silently dropped. -/
theorem c2_counterexample :
    buildCreateEventInput 1
      { typ := "diaper", occurredAt := "2026-02-26T10:00:00Z", side := "left" }
      = .ok ⟨1, "diaper", ⟨2026, 2, 26, 10, 0, 0, 0, 0⟩, []⟩ := by decide

/-- C2 amended: fields a kind does not read are silently ignored: the
validation result is unchanged when they change, and the side key never
appears in a payload of a non-nursing event. -/
theorem c2_amended :
    (∀ (bid : Int) (r : createEventRequest) (s sa ea : String) (d : Int),
      goToLower (goTrimSpace r.typ) = "diaper" →
      buildCreateEventInput bid { r with side := s, startAt := sa, endAt := ea, durationMinutes := d }
        = buildCreateEventInput bid r) ∧
    (∀ (bid : Int) (r : createEventRequest) (sa ea n : String),
      goToLower (goTrimSpace r.typ) = "nursing" →
      buildCreateEventInput bid { r with startAt := sa, endAt := ea, notes := n }
        = buildCreateEventInput bid r) ∧
    (∀ (bid : Int) (r : createEventRequest) (o s n : String) (d : Int),
      goToLower (goTrimSpace r.typ) = "sleep" →
      buildCreateEventInput bid { r with occurredAt := o, side := s, durationMinutes := d, notes := n }
        = buildCreateEventInput bid r) ∧
    (∀ (bid : Int) (r : createEventRequest) (input : CreateEventInput) (v : JSONValue),
      buildCreateEventInput bid r = .ok input → input.typ ≠ "nursing" →
      ("side", v) ∉ input.details) := by
  refine ⟨?_, ?_, ?_, ?_⟩
  · intro bid r s sa ea d ht
    rw [build_diaper_eq bid { r with side := s, startAt := sa, endAt := ea, durationMinutes := d } ht,
      build_diaper_eq bid r ht]
  · intro bid r sa ea n ht
    rw [build_nursing_eq bid { r with startAt := sa, endAt := ea, notes := n } ht,
      build_nursing_eq bid r ht]
  · intro bid r o s n d ht
    rw [build_sleep_eq bid { r with occurredAt := o, side := s, durationMinutes := d, notes := n } ht,
      build_sleep_eq bid r ht]
  · intro bid r input v h hne
    by_cases h1 : goToLower (goTrimSpace r.typ) = "diaper"
    · rw [build_diaper_eq bid r h1] at h
      cases hp : parseTimestamp r.occurredAt with
      | error e => simp [hp] at h
      | ok t =>
        simp only [hp, Except.ok.injEq] at h
        rw [← h]
        by_cases hn : goTrimSpace r.notes ≠ "" <;> simp [hn]
    · by_cases h2 : goToLower (goTrimSpace r.typ) = "nursing"
      · rw [build_nursing_eq bid r h2] at h
        cases hp : parseTimestamp r.occurredAt with
        | error e => simp [hp] at h
        | ok t =>
          simp only [hp] at h
          by_cases hc : goToLower (goTrimSpace r.side) ≠ "left" ∧ goToLower (goTrimSpace r.side) ≠ "right"
          · rw [if_pos hc] at h; simp at h
          · rw [if_neg hc] at h
            by_cases hd : r.durationMinutes ≤ 0
            · rw [if_pos hd] at h; simp at h
            · rw [if_neg hd] at h
              simp only [Except.ok.injEq] at h
              rw [← h] at hne
              simp at hne
      · by_cases h3 : goToLower (goTrimSpace r.typ) = "sleep"
        · rw [build_sleep_eq bid r h3] at h
          cases hp : parseTimestamp r.startAt with
          | error e => simp [hp] at h
          | ok s1 =>
            simp only [hp] at h
            cases hq : parseTimestamp r.endAt with
            | error e => simp [hq] at h
            | ok e1 =>
              simp only [hq] at h
              by_cases hA : (!dtAfter e1 s1) = true
              · rw [if_pos hA] at h; simp at h
              · rw [if_neg hA] at h
                simp only [Except.ok.injEq] at h
                rw [← h]
                simp
        · rw [build_unknown_eq bid r h1 h2 h3] at h
          simp at h

/-- C2 witness: a diaper submission is validated identically whether or
not the unused side, start_at, end_at and duration_minutes fields are
supplied. -/
theorem c2_witness :
    buildCreateEventInput 1
      { typ := "diaper", occurredAt := "2026-02-26T10:00:00Z",
        side := "left", startAt := "x", endAt := "y", durationMinutes := -3 }
      = buildCreateEventInput 1 { typ := "diaper", occurredAt := "2026-02-26T10:00:00Z" } :=
  c2_amended.1 1 { typ := "diaper", occurredAt := "2026-02-26T10:00:00Z" }
    "left" "x" "y" (-3) (by decide)

/-- C3 counterexample: a request with babyID 0 is not rejected: parseID
accepts "0" and the handler calls storage with babyID 0, refuting the
claim that zero identifiers are rejected before storage is reached. -/
theorem c3_counterexample :
    createEvent "0" (.ok { typ := "diaper", occurredAt := "2026-02-26T10:00:00Z" })
      = .storeCalled ⟨0, "diaper", ⟨2026, 2, 26, 10, 0, 0, 0, 0⟩, []⟩ := by decide

/-- C3 amended: createEvent rejects a babyID that is empty or fails
int64 parsing before the payload is examined, but any parsable value,
zero and negative values included, is accepted and passed to storage
when the payload validates. -/
theorem c3_amended :
    (∀ (raw : String) (body : Except String createEventRequest) (e : String),
      parseID raw = .error e → createEvent raw body = .invalidBabyID) ∧
    (∀ (raw : String) (body : Except String createEventRequest)
        (bid : Int) (req : createEventRequest) (input : CreateEventInput),
      parseID raw = .ok bid → body = .ok req →
      buildCreateEventInput bid req = .ok input →
      createEvent raw body = .storeCalled input) ∧
    parseID "0" = .ok 0 ∧ parseID "-7" = .ok (-7) ∧
    parseID "abc" = .error "invalid syntax" ∧ parseID "" = .error "id required" := by
  refine ⟨?_, ?_, by decide, by decide, by decide, by decide⟩
  · intro raw body e h
    unfold createEvent
    rw [h]
  · intro raw body bid req input h1 h2 h3
    unfold createEvent
    simp only [h1, h2, h3]

/-- C3 witness: a non-numeric babyID is rejected before the payload is
examined, and a negative babyID reaches storage. -/
theorem c3_witness :
    createEvent "not-a-number" (.ok { typ := "diaper", occurredAt := "2026-02-26T10:00:00Z" })
      = .invalidBabyID ∧
    createEvent "-7" (.ok { typ := "diaper", occurredAt := "2026-02-26T10:00:00Z" })
      = .storeCalled ⟨-7, "diaper", ⟨2026, 2, 26, 10, 0, 0, 0, 0⟩, []⟩ := by
  constructor
  · exact c3_amended.1 "not-a-number" _ "invalid syntax" (by decide)
  · exact c3_amended.2.1 "-7" _ (-7) _ _ (by decide) rfl (by decide)

/-- C4: the store is never reached on a parse or validation failure:
any buildCreateEventInput error is returned to the caller as a bad
request, and conversely every store call carries an input that passed
parseID, JSON decoding and buildCreateEventInput. -/
theorem c4_invalid_never_stored :
    (∀ (raw : String) (req : createEventRequest) (bid : Int) (e : String),
      parseID raw = .ok bid → buildCreateEventInput bid req = .error e →
      createEvent raw (.ok req) = .badRequest e) ∧
    (∀ (raw : String) (body : Except String createEventRequest) (input : CreateEventInput),
      createEvent raw body = .storeCalled input →
      ∃ bid req, parseID raw = .ok bid ∧ body = .ok req ∧
        buildCreateEventInput bid req = .ok input) := by
  constructor
  · intro raw req bid e h1 h2
    unfold createEvent
    simp only [h1, h2]
  · intro raw body input h
    unfold createEvent at h
    cases hp : parseID raw with
    | error e => simp [hp] at h
    | ok bid =>
      simp only [hp] at h
      cases body with
      | error j => simp at h
      | ok req =>
        cases hb : buildCreateEventInput bid req with
        | error m => simp [hb] at h
        | ok inp =>
          simp only [hb, CreateEventOutcome.storeCalled.injEq] at h
          exact ⟨bid, req, rfl, rfl, by rw [hb, h]⟩

/-- C4 witness: a nursing request with an invalid side is answered with
the validation error and the store is not called. -/
theorem c4_witness :
    createEvent "1"
      (.ok { typ := "nursing", occurredAt := "2026-02-26T10:00:00Z",
             side := "middle", durationMinutes := 10 })
      = .badRequest "side must be left or right for nursing events" :=
  c4_invalid_never_stored.1 "1" _ 1 _ (by decide) (by decide)

/-- C5 counterexample: a nursing submission without duration_minutes
(the Go zero value 0 of the absent JSON field) is rejected, refuting
the claim that the field is optional. -/
theorem c5_counterexample :
    buildCreateEventInput 1
      { typ := "nursing", occurredAt := "2026-02-26T10:00:00Z", side := "left" }
      = .error "duration_minutes must be greater than 0 for nursing events" := by decide

/-- C5 amended: with the other nursing fields valid, the submission is
accepted exactly when duration_minutes is strictly positive; zero and
negative values are rejected, and the field is effectively required
because an absent field decodes to 0 (non-integral values already fail
JSON decoding into the int field). -/
theorem c5_amended :
    ∀ (bid : Int) (r : createEventRequest) (t : GoTime),
      goToLower (goTrimSpace r.typ) = "nursing" →
      parseTimestamp r.occurredAt = .ok t →
      (goToLower (goTrimSpace r.side) = "left" ∨ goToLower (goTrimSpace r.side) = "right") →
      ((∃ input, buildCreateEventInput bid r = .ok input) ↔ 0 < r.durationMinutes) := by
  intro bid r t ht hocc hside
  rw [build_nursing_eq bid r ht]
  simp only [hocc]
  have hcond : ¬(goToLower (goTrimSpace r.side) ≠ "left" ∧ goToLower (goTrimSpace r.side) ≠ "right") := by
    rcases hside with h | h <;> simp [h]
  rw [if_neg hcond]
  by_cases hd : r.durationMinutes ≤ 0
  · rw [if_pos hd]
    constructor
    · rintro ⟨input, hI⟩
      simp at hI
    · intro h0
      omega
  · rw [if_neg hd]
    constructor
    · intro _
      omega
    · intro _
      exact ⟨_, rfl⟩

/-- C5 witness: a nursing submission with duration_minutes 18 and the
other fields valid is accepted. -/
theorem c5_witness :
    ∃ input, buildCreateEventInput 1
      { typ := "nursing", occurredAt := "2026-02-26T10:00:00Z",
        side := "left", durationMinutes := 18 }
      = .ok input :=
  (c5_amended 1 _ ⟨2026, 2, 26, 10, 0, 0, 0, 0⟩ (by decide) (by decide) (by decide)).mpr
    (by decide)

/-- C6: with the other nursing fields valid, the side field is matched
after trimming and ASCII lowering against left and right: the
submission is accepted exactly when the normalized side is left or
right, and otherwise it is rejected with the validation error naming
the field. -/
theorem c6_side_case_insensitive :
    ∀ (bid : Int) (r : createEventRequest) (t : GoTime),
      goToLower (goTrimSpace r.typ) = "nursing" →
      parseTimestamp r.occurredAt = .ok t →
      0 < r.durationMinutes →
      ((∃ input, buildCreateEventInput bid r = .ok input) ↔
        (goToLower (goTrimSpace r.side) = "left" ∨ goToLower (goTrimSpace r.side) = "right")) ∧
      (¬(goToLower (goTrimSpace r.side) = "left" ∨ goToLower (goTrimSpace r.side) = "right") →
        buildCreateEventInput bid r = .error "side must be left or right for nursing events") := by
  intro bid r t ht hocc hdur
  rw [build_nursing_eq bid r ht]
  simp only [hocc]
  by_cases hc : goToLower (goTrimSpace r.side) ≠ "left" ∧ goToLower (goTrimSpace r.side) ≠ "right"
  · rw [if_pos hc]
    constructor
    · constructor
      · rintro ⟨input, hI⟩
        simp at hI
      · intro hmatch
        rcases hmatch with h | h <;> exact absurd h (by tauto)
    · intro _
      rfl
  · rw [if_neg hc]
    have hd : ¬r.durationMinutes ≤ 0 := by omega
    rw [if_neg hd]
    constructor
    · constructor
      · intro _
        by_contra hno
        exact hc (by tauto)
      · intro _
        exact ⟨_, rfl⟩
    · intro hno
      exact absurd (by tauto : ¬(goToLower (goTrimSpace r.side) ≠ "left" ∧ goToLower (goTrimSpace r.side) ≠ "right") → goToLower (goTrimSpace r.side) = "left" ∨ goToLower (goTrimSpace r.side) = "right") (by tauto)

/-- C6 witness: the side spelling LeFt is accepted and the side value
middle is rejected with the validation error. -/
theorem c6_witness :
    (∃ input, buildCreateEventInput 1
      { typ := "nursing", occurredAt := "2026-02-26T10:00:00Z",
        side := "LeFt", durationMinutes := 5 } = .ok input) ∧
    buildCreateEventInput 1
      { typ := "nursing", occurredAt := "2026-02-26T10:00:00Z",
        side := "middle", durationMinutes := 5 }
      = .error "side must be left or right for nursing events" := by
  constructor
  · exact ((c6_side_case_insensitive 1 _ ⟨2026, 2, 26, 10, 0, 0, 0, 0⟩
      (by decide) (by decide) (by decide)).1).mpr (by decide)
  · exact ((c6_side_case_insensitive 1 _ ⟨2026, 2, 26, 10, 0, 0, 0, 0⟩
      (by decide) (by decide) (by decide)).2) (by decide)

/-- C9: every accepted event stores the trimmed, lowered event type,
which is one of the three canonical kind strings, and any side value in
a stored payload is the trimmed, lowered client value and is left or
right; inputs such as a padded Diaper spelling or an upper case LEFT
are accepted and normalized. -/
theorem c9_normalized :
    (∀ (bid : Int) (r : createEventRequest) (input : CreateEventInput),
      buildCreateEventInput bid r = .ok input →
      input.typ = goToLower (goTrimSpace r.typ) ∧
      (input.typ = "diaper" ∨ input.typ = "nursing" ∨ input.typ = "sleep") ∧
      (∀ v, ("side", v) ∈ input.details →
        v = .s (goToLower (goTrimSpace r.side)) ∧
        (goToLower (goTrimSpace r.side) = "left" ∨ goToLower (goTrimSpace r.side) = "right"))) ∧
    (∃ input, buildCreateEventInput 1
      { typ := " Diaper ", occurredAt := "2026-02-26T10:00:00Z" } = .ok input ∧
      input.typ = "diaper") ∧
    (∃ input, buildCreateEventInput 1
      { typ := "NURSING", occurredAt := "2026-02-26T10:00:00Z", side := "LEFT", durationMinutes := 7 }
      = .ok input ∧
      input.details = [("side", .s "left"), ("duration_minutes", .n 7)]) := by
  refine ⟨?_, ?_, ?_⟩
  · intro bid r input h
    by_cases h1 : goToLower (goTrimSpace r.typ) = "diaper"
    · rw [build_diaper_eq bid r h1] at h
      cases hp : parseTimestamp r.occurredAt with
      | error e => simp [hp] at h
      | ok t =>
        simp only [hp, Except.ok.injEq] at h
        cases h
        refine ⟨h1.symm, Or.inl rfl, ?_⟩
        intro v hv
        by_cases hn : goTrimSpace r.notes ≠ "" <;> simp [hn] at hv
    · by_cases h2 : goToLower (goTrimSpace r.typ) = "nursing"
      · rw [build_nursing_eq bid r h2] at h
        cases hp : parseTimestamp r.occurredAt with
        | error e => simp [hp] at h
        | ok t =>
          simp only [hp] at h
          by_cases hc : goToLower (goTrimSpace r.side) ≠ "left" ∧ goToLower (goTrimSpace r.side) ≠ "right"
          · rw [if_pos hc] at h
            simp at h
          · rw [if_neg hc] at h
            by_cases hd : r.durationMinutes ≤ 0
            · rw [if_pos hd] at h
              simp at h
            · rw [if_neg hd] at h
              simp only [Except.ok.injEq] at h
              cases h
              have hside : goToLower (goTrimSpace r.side) = "left" ∨ goToLower (goTrimSpace r.side) = "right" := by
                tauto
              refine ⟨h2.symm, Or.inr (Or.inl rfl), ?_⟩
              intro v hv
              simp at hv
              exact ⟨hv, hside⟩
      · by_cases h3 : goToLower (goTrimSpace r.typ) = "sleep"
        · rw [build_sleep_eq bid r h3] at h
          cases hp : parseTimestamp r.startAt with
          | error e => simp [hp] at h
          | ok s1 =>
            simp only [hp] at h
            cases hq : parseTimestamp r.endAt with
            | error e => simp [hq] at h
            | ok e1 =>
              simp only [hq] at h
              by_cases hA : (!dtAfter e1 s1) = true
              · rw [if_pos hA] at h
                simp at h
              · rw [if_neg hA] at h
                simp only [Except.ok.injEq] at h
                cases h
                refine ⟨h3.symm, Or.inr (Or.inr rfl), ?_⟩
                intro v hv
                simp at hv
        · rw [build_unknown_eq bid r h1 h2 h3] at h
          simp at h
  · exact ⟨⟨1, "diaper", ⟨2026, 2, 26, 10, 0, 0, 0, 0⟩, []⟩, by decide, rfl⟩
  · exact ⟨⟨1, "nursing", ⟨2026, 2, 26, 10, 0, 0, 0, 0⟩,
      [("side", .s "left"), ("duration_minutes", .n 7)]⟩, by decide, rfl⟩

/-- C9 witness: the accepted padded Diaper spelling stores the trimmed,
lowered type. -/
theorem c9_witness :
    ∃ input, buildCreateEventInput 1
      { typ := " Diaper ", occurredAt := "2026-02-26T10:00:00Z" } = .ok input ∧
      input.typ = goToLower (goTrimSpace " Diaper ") := by
  refine ⟨⟨1, "diaper", ⟨2026, 2, 26, 10, 0, 0, 0, 0⟩, []⟩, by decide, ?_⟩
  exact (c9_normalized.1 1 { typ := " Diaper ", occurredAt := "2026-02-26T10:00:00Z" }
    ⟨1, "diaper", ⟨2026, 2, 26, 10, 0, 0, 0, 0⟩, []⟩ (by decide)).1

/-- C10: an accepted sleep event stores the parsed start_at value,
fractional seconds included, as its occurred_at, while the details
payload records both timestamps reformatted at whole-second RFC 3339
precision, a formatting that ignores the nanosecond field. -/
theorem c10_sleep_details :
    (∀ (bid : Int) (r : createEventRequest) (s e : GoTime),
      goToLower (goTrimSpace r.typ) = "sleep" →
      parseTimestamp r.startAt = .ok s →
      parseTimestamp r.endAt = .ok e →
      dtAfter e s = true →
      buildCreateEventInput bid r = .ok ⟨bid, "sleep", s,
        [("start_at", .s (formatRFC3339 s)), ("end_at", .s (formatRFC3339 e))]⟩) ∧
    (∀ t : GoTime, formatRFC3339 { t with nsec := 0 } = formatRFC3339 t) := by
  constructor
  · intro bid r s e ht hs he hA
    rw [build_sleep_eq bid r ht]
    simp only [hs, he]
    simp [hA]
  · intro t
    rfl

/-- C10 witness: a sleep submission with a fractional start keeps the
nanoseconds in occurred_at but stores whole-second detail strings. -/
theorem c10_witness :
    buildCreateEventInput 3
      { typ := "sleep", startAt := "2026-02-26T10:00:00.75Z", endAt := "2026-02-26T11:00:00Z" }
      = .ok ⟨3, "sleep", ⟨2026, 2, 26, 10, 0, 0, 750000000, 0⟩,
          [("start_at", .s "2026-02-26T10:00:00Z"), ("end_at", .s "2026-02-26T11:00:00Z")]⟩ := by
  have h := c10_sleep_details.1 3
    { typ := "sleep", startAt := "2026-02-26T10:00:00.75Z", endAt := "2026-02-26T11:00:00Z" }
    ⟨2026, 2, 26, 10, 0, 0, 750000000, 0⟩ ⟨2026, 2, 26, 11, 0, 0, 0, 0⟩
    (by decide) (by decide) (by decide) (by decide)
  rw [h]
  decide

/-- C7 counterexample: schema-compliant inputs that validate but do not
round-trip exactly: a sleep submission with fractional seconds comes
back with whole-second detail strings, and a nursing submission with an
upper case side comes back with the lowered side, so the returned event
does not carry exactly the input field values. -/
theorem c7_counterexample :
    createEventEcho 102 "9"
      (.ok { typ := "sleep", startAt := "2026-02-26T12:00:00.5Z", endAt := "2026-02-26T13:30:00Z" })
      = some ⟨102, 9, "sleep", ⟨2026, 2, 26, 12, 0, 0, 500000000, 0⟩,
          [("start_at", .s "2026-02-26T12:00:00Z"), ("end_at", .s "2026-02-26T13:30:00Z")]⟩ ∧
    ("2026-02-26T12:00:00Z" : String) ≠ "2026-02-26T12:00:00.5Z" ∧
    createEventEcho 101 "7"
      (.ok { typ := "nursing", occurredAt := "2026-02-26T11:15:00Z", side := "LEFT", durationMinutes := 18 })
      = some ⟨101, 7, "nursing", ⟨2026, 2, 26, 11, 15, 0, 0, 0⟩,
          [("side", .s "left"), ("duration_minutes", .n 18)]⟩ ∧
    ("left" : String) ≠ "LEFT" :=
  ⟨by decide, by decide, by decide, by decide⟩

/-- C7 amended: for each kind, a schema-compliant request in canonical
form (side literally left or right, sleep timestamps in whole-second
RFC 3339 form) is accepted and round-trips through the handler and the
echoing store: the returned event carries exactly the supplied field
values, with the store assigned id the only added value; non-canonical
compliant inputs validate too but come back normalized. -/
theorem c7_roundtrip :
    (∀ (cid bid : Int) (raw : String) (r : createEventRequest) (t : GoTime),
      parseID raw = .ok bid → r.typ = "diaper" →
      parseTimestamp r.occurredAt = .ok t → goTrimSpace r.notes ≠ "" →
      createEventEcho cid raw (.ok r)
        = some ⟨cid, bid, "diaper", t, [("notes", .s r.notes)]⟩) ∧
    (∀ (cid bid : Int) (raw : String) (r : createEventRequest) (t : GoTime),
      parseID raw = .ok bid → r.typ = "nursing" → (r.side = "left" ∨ r.side = "right") →
      parseTimestamp r.occurredAt = .ok t → 0 < r.durationMinutes →
      createEventEcho cid raw (.ok r)
        = some ⟨cid, bid, "nursing", t,
            [("side", .s r.side), ("duration_minutes", .n r.durationMinutes)]⟩) ∧
    (∀ (cid bid : Int) (raw : String) (r : createEventRequest) (s e : GoTime),
      parseID raw = .ok bid → r.typ = "sleep" →
      parseTimestamp r.startAt = .ok s → parseTimestamp r.endAt = .ok e →
      dtAfter e s = true → formatRFC3339 s = r.startAt → formatRFC3339 e = r.endAt →
      createEventEcho cid raw (.ok r)
        = some ⟨cid, bid, "sleep", s,
            [("start_at", .s r.startAt), ("end_at", .s r.endAt)]⟩) := by
  refine ⟨?_, ?_, ?_⟩
  · intro cid bid raw r t hid ht hocc hnotes
    have ht2 : goToLower (goTrimSpace r.typ) = "diaper" := by
      rw [ht]
      decide
    unfold createEventEcho createEvent
    simp only [hid]
    rw [build_diaper_eq bid r ht2]
    simp only [hocc]
    rw [if_pos hnotes]
    rfl
  · intro cid bid raw r t hid ht hside hocc hdur
    have ht2 : goToLower (goTrimSpace r.typ) = "nursing" := by
      rw [ht]
      decide
    have hsideEq : goToLower (goTrimSpace r.side) = r.side := by
      rcases hside with h | h <;> rw [h] <;> decide
    have hc : ¬(goToLower (goTrimSpace r.side) ≠ "left" ∧ goToLower (goTrimSpace r.side) ≠ "right") := by
      rcases hside with h | h <;> rw [hsideEq, h] <;> simp
    unfold createEventEcho createEvent
    simp only [hid]
    rw [build_nursing_eq bid r ht2]
    simp only [hocc]
    rw [if_neg hc, if_neg (by omega : ¬r.durationMinutes ≤ 0), hsideEq]
    rfl
  · intro cid bid raw r s e hid ht hs he hA hfs hfe
    have ht2 : goToLower (goTrimSpace r.typ) = "sleep" := by
      rw [ht]
      decide
    unfold createEventEcho createEvent
    simp only [hid]
    rw [build_sleep_eq bid r ht2]
    simp only [hs, he]
    rw [if_neg (by simp [hA] : ¬(!dtAfter e s) = true), hfs, hfe]
    rfl

/-- C7 witness: the three canonical requests of the unit tests
round-trip with only the id added. -/
theorem c7_witness :
    createEventEcho 100 "42"
      (.ok { typ := "diaper", occurredAt := "2026-02-26T10:00:00Z", notes := "quick change" })
      = some ⟨100, 42, "diaper", ⟨2026, 2, 26, 10, 0, 0, 0, 0⟩,
          [("notes", .s "quick change")]⟩ ∧
    createEventEcho 101 "7"
      (.ok { typ := "nursing", occurredAt := "2026-02-26T11:15:00Z", side := "left", durationMinutes := 18 })
      = some ⟨101, 7, "nursing", ⟨2026, 2, 26, 11, 15, 0, 0, 0⟩,
          [("side", .s "left"), ("duration_minutes", .n 18)]⟩ ∧
    createEventEcho 102 "9"
      (.ok { typ := "sleep", startAt := "2026-02-26T12:00:00Z", endAt := "2026-02-26T13:30:00Z" })
      = some ⟨102, 9, "sleep", ⟨2026, 2, 26, 12, 0, 0, 0, 0⟩,
          [("start_at", .s "2026-02-26T12:00:00Z"), ("end_at", .s "2026-02-26T13:30:00Z")]⟩ := by
  refine ⟨?_, ?_, ?_⟩
  · exact c7_roundtrip.1 100 42 "42" _ _ (by decide) rfl (by decide) (by decide)
  · exact c7_roundtrip.2.1 101 7 "7" _ _ (by decide) rfl (Or.inl rfl) (by decide) (by decide)
  · exact c7_roundtrip.2.2 102 9 "9"
      { typ := "sleep", startAt := "2026-02-26T12:00:00Z", endAt := "2026-02-26T13:30:00Z" }
      ⟨2026, 2, 26, 12, 0, 0, 0, 0⟩ ⟨2026, 2, 26, 13, 30, 0, 0, 0⟩
      (by decide) rfl (by decide) (by decide) (by decide) (by decide) (by decide)

end BabyTracker
